import Mathlib

/-!
# Shallow embedding of the Smash Messaging Endpoint relay (src/src/server.ts)

The relay keeps a process-wide map `REGISTERED_USERS` from an identity
(the base64 export of a client public key) to a mailbox holding an
optional live socket and a FIFO queue of envelopes.  The socket.io
event handlers (`data`, `register`, `disconnect`) and the helper
functions `sendDataTo`, `flushDataQueue`, `registerMailBox` are
modelled as pure state-passing functions that also return the list of
transport emissions they perform, in order.

Sockets are identified by natural-number handles; payloads are opaque
and modelled by a natural number (the code only ever reads their
`length`, for logging).
-/

namespace SME

/-- An opaque payload; the server treats data as opaque bytes. -/
abbrev Data := Nat

/-- A queued envelope: the caller-supplied session id together with the
opaque payload, exactly the pair pushed by `sendDataTo`
(`queue.push([sessionId, data])`). -/
abbrev Envelope := String × Data

/-- A socket handle.  The relay never inspects the socket beyond using it
as an emission target, so a bare identifier suffices. -/
abbrev SocketId := Nat

/-- One mailbox row of `REGISTERED_USERS`: `{ socket?, queue: [] }`. -/
structure Mailbox where
  socket : Option SocketId
  queue : List Envelope
  deriving Repr, DecidableEq, Inhabited

/-- The registry `REGISTERED_USERS`, a map from identity (exported public
key string) to its mailbox. -/
abbrev RegisteredUsers := String → Option Mailbox

/-- The empty registry (`const REGISTERED_USERS = {}`). -/
def emptyUsers : RegisteredUsers := fun _ => none

/-- `REGISTERED_USERS[keyId] = mb` (JS object property assignment). -/
def updateUser (s : RegisteredUsers) (keyId : String) (mb : Mailbox) :
    RegisteredUsers :=
  fun k => if k = keyId then some mb else s k

/-- Every transport emission the server performs, tagged with the target
socket.  `ack` stands for invoking a client-supplied acknowledgment
callback; no handler in `server.ts` ever invokes one, so no operation
below produces it. -/
inductive Event where
  /-- `socket.emit('data', sessionId, data)` -/
  | data (sock : SocketId) (sessionId : String) (payload : Data)
  /-- `socket.emit('error', { code, message })` -/
  | error (sock : SocketId) (code : Nat) (message : String)
  /-- `socket.emit('challenge', { iv, challenge })` -/
  | challenge (sock : SocketId) (iv : String) (encChallenge : String)
  /-- `socket.disconnect(true)` -/
  | disconnect (sock : SocketId)
  /-- invocation of a client-supplied acknowledgment callback -/
  | ack (sock : SocketId)
  deriving Repr, DecidableEq

/-- JavaScript `String.prototype.substring`: both indices are clamped to
`[0, length]` and swapped when out of order. -/
def jsSubstring (s : String) (start finish : Int) : String :=
  let len : Int := s.length
  let a : Nat := (max 0 (min start len)).toNat
  let b : Nat := (max 0 (min finish len)).toNat
  let lo := min a b
  let hi := max a b
  String.mk ((s.data.drop lo).take (hi - lo))

/-- `src/src/crypto.ts`:
`const last4 = (str) => str.substring(str.length - 6, str.length - 2)`. -/
def last4 (str : String) : String :=
  jsSubstring str ((str.length : Int) - 6) ((str.length : Int) - 2)

/-- The body of the `while (recipient.queue.length)` loop in
`flushDataQueue`: shift envelopes off the front of the queue one at a
time and emit each to the bound socket, in order. -/
def flushLoop (sock : SocketId) : List Envelope → List Event
  | [] => []
  | (sessionId, payload) :: rest =>
      Event.data sock sessionId payload :: flushLoop sock rest

/-- `flushDataQueue(keyId)`: if the mailbox exists and has a live socket,
drain the whole queue to it (removal happens at transmission attempt);
otherwise do nothing. -/
def flushDataQueue (s : RegisteredUsers) (keyId : String) :
    RegisteredUsers × List Event :=
  match s keyId with
  | some recipient =>
      match recipient.socket with
      | some sock =>
          (updateUser s keyId { recipient with queue := [] },
            flushLoop sock recipient.queue)
      | none => (s, [])
  | none => (s, [])

/-- `sendDataTo(keyId, sessionId, data)`:
`REGISTERED_USERS[keyId]?.queue.push([sessionId, data])` (optional
chaining: a silent no-op when there is no mailbox row), then
`flushDataQueue(keyId)`. -/
def sendDataTo (s : RegisteredUsers) (keyId sessionId : String)
    (data : Data) : RegisteredUsers × List Event :=
  let s1 :=
    match s keyId with
    | some mb => updateUser s keyId { mb with queue := mb.queue ++ [(sessionId, data)] }
    | none => s
  flushDataQueue s1 keyId

/-- `registerMailBox(keyId, recipientSocket)`: when the identity is
already registered, replace the live socket and flush; otherwise create
a fresh mailbox `{ socket: recipientSocket, queue: [] }`. -/
def registerMailBox (s : RegisteredUsers) (keyId : String)
    (recipientSocket : SocketId) : RegisteredUsers × List Event :=
  match s keyId with
  | some mb =>
      flushDataQueue (updateUser s keyId { mb with socket := some recipientSocket }) keyId
  | none =>
      (updateUser s keyId { socket := some recipientSocket, queue := [] }, [])

/-- The `socket.on('data', ...)` handler: unknown recipients get a 404
error emitted back to the sender; known recipients get the payload
enqueued (and flushed) via `sendDataTo`.  The sender's own
authentication state is never consulted. -/
def onData (s : RegisteredUsers) (senderSock : SocketId)
    (peerId sessionId : String) (data : Data) :
    RegisteredUsers × List Event :=
  if (s peerId).isSome then
    sendDataTo s peerId sessionId data
  else
    (s, [Event.error senderSock 404 ("Peer " ++ last4 peerId ++ " not found")])

/-- The `socket.on('register', ...)` handler attached to a fresh
authenticated connection.  `expectedB64` is the base64 encoding of the
plaintext challenge nonce retained in the handler closure
(`challengeBuf.toString('base64')`).  An exact string match registers
the mailbox; anything else forcibly disconnects the socket.  The
handler's parameter list is `(solvedChallengeAsString)` only: a
client-supplied acknowledgment callback is never invoked, so no
`Event.ack` is ever produced. -/
def onRegister (s : RegisteredUsers) (clientKeyId : String)
    (sock : SocketId) (expectedB64 solvedChallengeAsString : String) :
    RegisteredUsers × List Event :=
  if solvedChallengeAsString = expectedB64 then
    registerMailBox s clientKeyId sock
  else
    (s, [Event.disconnect sock])

/-- The `socket.on('disconnect', ...)` handler:
`if (REGISTERED_USERS[clientKeyId]) REGISTERED_USERS[clientKeyId].socket = undefined`.
The mailbox row and its queue are kept. -/
def onDisconnect (s : RegisteredUsers) (clientKeyId : String) :
    RegisteredUsers :=
  match s clientKeyId with
  | some mb => updateUser s clientKeyId { mb with socket := none }
  | none => s

/-- What the `io.on('connection', ...)` handler sets up for one
connection, besides the (always attached) `data` and `disconnect`
listeners. -/
structure ConnectionSetup where
  /-- emissions performed while handling the connection -/
  events : List Event
  /-- whether a `register` listener was attached to this socket -/
  registerHandlerAttached : Bool
  /-- the identity this connection resolved to (`'ANONYMOUS'` without a
  credential) -/
  clientKeyId : String
  deriving Repr, DecidableEq

/-- The `io.on('connection', ...)` handler.  `recovered` is
`socket.recovered` (transport-reported session resumption), `auth` is
`!!socket.handshake.auth.key`, and `keyIdOfCredential` is the base64
export of the presented public key.  Only the `!socket.recovered && auth`
branch emits a `challenge` and attaches a `register` listener; neither
branch touches `REGISTERED_USERS`. -/
def handleConnection (s : RegisteredUsers) (sock : SocketId)
    (recovered auth : Bool) (keyIdOfCredential iv encChallenge : String) :
    RegisteredUsers × ConnectionSetup :=
  let clientKeyId := if auth then keyIdOfCredential else "ANONYMOUS"
  if (!recovered) && auth then
    (s, { events := [Event.challenge sock iv encChallenge],
          registerHandlerAttached := true,
          clientKeyId := clientKeyId })
  else
    (s, { events := [],
          registerHandlerAttached := false,
          clientKeyId := clientKeyId })

/-- Whether an emission is the invocation of a client acknowledgment
callback. -/
def Event.isAck : Event → Bool
  | ack _ => true
  | _ => false

/-- The scenario behind the offline-delivery property: three `data`
sends for `keyId` followed by a successful registration binding socket
`c`, with the emissions of all four steps concatenated in order. -/
def enqueue3ThenRegister (s : RegisteredUsers) (keyId : String)
    (e1 e2 e3 : Envelope) (c : SocketId) : RegisteredUsers × List Event :=
  let r1 := sendDataTo s keyId e1.1 e1.2
  let r2 := sendDataTo r1.1 keyId e2.1 e2.2
  let r3 := sendDataTo r2.1 keyId e3.1 e3.2
  let r4 := registerMailBox r3.1 keyId c
  (r4.1, r1.2 ++ r2.2 ++ r3.2 ++ r4.2)

/-- A registry with one registered identity `"A"` whose mailbox has no
live connection (as after a disconnect). -/
def usersWithUnboundA : RegisteredUsers :=
  updateUser emptyUsers "A" { socket := none, queue := [] }

/-- A registry with identity `"A"` bound to socket `1` (empty queue) and
identity `"B"` unbound with one pending envelope. -/
def usersAB : RegisteredUsers :=
  updateUser (updateUser emptyUsers "A" { socket := some 1, queue := [] })
    "B" { socket := none, queue := [("t0", 5)] }

/-- The per-identity delivery invariant maintained by the registry
operations: any mailbox with a live socket has an empty queue (every
binding or enqueue immediately flushes). -/
def BoundImpliesEmptyQueue (s : RegisteredUsers) : Prop :=
  ∀ k mb, s k = some mb → mb.socket.isSome = true → mb.queue = []

end SME

namespace SME

/-! ## Basic lemmas about the registry operations -/

@[simp]
theorem updateUser_apply (s : RegisteredUsers) (keyId : String)
    (mb : Mailbox) (k : String) :
    updateUser s keyId mb k = if k = keyId then some mb else s k := rfl

theorem updateUser_updateUser (s : RegisteredUsers) (keyId : String)
    (mb1 mb2 : Mailbox) :
    updateUser (updateUser s keyId mb1) keyId mb2 = updateUser s keyId mb2 := by
  funext k
  by_cases h : k = keyId <;> simp [updateUser, h]

theorem flushLoop_eq_map (sock : SocketId) (q : List Envelope) :
    flushLoop sock q = q.map fun e => Event.data sock e.1 e.2 := by
  induction q with
  | nil => rfl
  | cons e rest ih => cases e; simp [flushLoop, ih]

theorem flushLoop_no_ack (sock : SocketId) (q : List Envelope) :
    (flushLoop sock q).all (fun e => ! e.isAck) = true := by
  induction q with
  | nil => rfl
  | cons e rest ih => cases e; simpa [flushLoop, Event.isAck] using ih

/-- `registerMailBox` always leaves the target mailbox bound to the given
socket with an empty queue (the existing queue is flushed on re-binding). -/
theorem registerMailBox_apply_self (s : RegisteredUsers) (keyId : String)
    (c : SocketId) :
    (registerMailBox s keyId c).1 keyId
      = some { socket := some c, queue := [] } := by
  cases hmb : s keyId with
  | none => simp [registerMailBox, hmb]
  | some mb => simp [registerMailBox, hmb, flushDataQueue, updateUser]

end SME

namespace SME

/-! ## Claim theorems -/

/-- C10: `sendDataTo` on an identity with no mailbox row is a total,
silent no-op: the optional-chained push does nothing, the flush finds no
recipient, no mailbox is created, nothing is emitted, and the registry is
returned unchanged.  (Totality of the Lean function models absence of
exceptions.) -/
theorem sendDataTo_unknown_silent_noop (s : RegisteredUsers)
    (keyId sessionId : String) (data : Data) (h : s keyId = none) :
    sendDataTo s keyId sessionId data = (s, []) := by
  simp [sendDataTo, flushDataQueue, h]

theorem sendDataTo_unknown_silent_noop_witness :
    emptyUsers "ghost" = none ∧
    sendDataTo emptyUsers "ghost" "t1" 42 = (emptyUsers, []) :=
  ⟨rfl, sendDataTo_unknown_silent_noop emptyUsers "ghost" "t1" 42 rfl⟩

/-- C3: a `data` send naming a recipient with no mailbox emits exactly one
`error` event with code 404 identifying the recipient (by its short id)
back to the sender; the registry is returned unchanged (in particular no
mailbox is created), and no `disconnect` of the sender's socket occurs. -/
theorem data_to_unknown_recipient_404 (s : RegisteredUsers)
    (senderSock : SocketId) (peerId sessionId : String) (data : Data)
    (h : s peerId = none) :
    onData s senderSock peerId sessionId data =
      (s, [Event.error senderSock 404 ("Peer " ++ last4 peerId ++ " not found")]) ∧
    Event.disconnect senderSock ∉ (onData s senderSock peerId sessionId data).2 := by
  constructor
  · simp [onData, h]
  · simp [onData, h]

theorem data_to_unknown_recipient_404_witness :
    (updateUser emptyUsers "A" { socket := some 1, queue := [] }) "ghost" = none ∧
    (onData (updateUser emptyUsers "A" { socket := some 1, queue := [] })
        7 "ghost" "t1" 42 =
      ((updateUser emptyUsers "A" { socket := some 1, queue := [] }),
        [Event.error 7 404 ("Peer " ++ last4 "ghost" ++ " not found")]) ∧
     Event.disconnect 7 ∉
       (onData (updateUser emptyUsers "A" { socket := some 1, queue := [] })
         7 "ghost" "t1" 42).2) :=
  ⟨by decide,
   data_to_unknown_recipient_404
     (updateUser emptyUsers "A" { socket := some 1, queue := [] })
     7 "ghost" "t1" 42 (by decide)⟩

/-- C2: the `register` handler accepts the claimed solution iff it is
exactly string-equal to the base64 encoding of the stored plaintext
nonce (`expectedB64`).  On equality the identity's mailbox ends up bound
to this socket (and the handler never disconnects it); on any mismatch
the registry is untouched and the only action is a forcible
`socket.disconnect(true)` — no retry is offered on this connection. -/
theorem register_accepts_iff_exact_equality (s : RegisteredUsers)
    (clientKeyId : String) (sock : SocketId) (expectedB64 solved : String) :
    (solved = expectedB64 →
        (onRegister s clientKeyId sock expectedB64 solved).1 clientKeyId
          = some { socket := some sock, queue := [] } ∧
        Event.disconnect sock ∉ (onRegister s clientKeyId sock expectedB64 solved).2) ∧
    (solved ≠ expectedB64 →
        onRegister s clientKeyId sock expectedB64 solved
          = (s, [Event.disconnect sock])) := by
  constructor
  · intro heq
    subst heq
    refine ⟨?_, ?_⟩
    · simpa [onRegister] using registerMailBox_apply_self s clientKeyId sock
    · simp only [onRegister, if_pos rfl]
      cases hmb : s clientKeyId with
      | none => simp [registerMailBox, hmb]
      | some mb =>
          simp [registerMailBox, hmb, flushDataQueue, updateUser,
            flushLoop_eq_map]
  · intro hne
    simp [onRegister, hne]

/-- C1: for an identity whose mailbox exists but has no live connection
(and nothing pending), enqueuing `m1, m2, m3` in that order and then
binding a live connection via registration delivers exactly the events
`(m1, m2, m3)` to that connection, in that order, each exactly once; the
mailbox ends bound with an empty queue. -/
theorem offline_enqueue_then_register_fifo (s : RegisteredUsers)
    (keyId : String) (sid1 sid2 sid3 : String) (m1 m2 m3 : Data)
    (c : SocketId) (hmb : s keyId = some { socket := none, queue := [] }) :
    enqueue3ThenRegister s keyId (sid1, m1) (sid2, m2) (sid3, m3) c =
      (updateUser s keyId { socket := some c, queue := [] },
        [Event.data c sid1 m1, Event.data c sid2 m2, Event.data c sid3 m3]) := by
  simp [enqueue3ThenRegister, sendDataTo, registerMailBox, flushDataQueue,
    hmb, updateUser_updateUser, flushLoop]

theorem offline_enqueue_then_register_fifo_witness :
    (updateUser emptyUsers "A" { socket := none, queue := [] }) "A"
        = some { socket := none, queue := [] } ∧
    enqueue3ThenRegister (updateUser emptyUsers "A" { socket := none, queue := [] })
        "A" ("s1", 10) ("s2", 20) ("s3", 30) 5 =
      (updateUser (updateUser emptyUsers "A" { socket := none, queue := [] })
          "A" { socket := some 5, queue := [] },
        [Event.data 5 "s1" 10, Event.data 5 "s2" 20, Event.data 5 "s3" 30]) :=
  ⟨by decide,
   offline_enqueue_then_register_fifo
     (updateUser emptyUsers "A" { socket := none, queue := [] })
     "A" "s1" "s2" "s3" 10 20 30 5 (by decide)⟩

/-- C4: a mailbox stores at most one live socket (its `socket` field is
a single optional reference), and registering the same identity first
via socket `c1` and then via socket `c2` leaves only `c2` bound; a
subsequent send is delivered only to `c2` (a single `data` event
targeting `c2`, none targeting `c1`). -/
theorem rebind_last_writer_wins (s : RegisteredUsers) (keyId : String)
    (c1 c2 : SocketId) (sid : String) (d : Data) :
    (registerMailBox (registerMailBox s keyId c1).1 keyId c2).1 keyId
        = some { socket := some c2, queue := [] } ∧
    (sendDataTo (registerMailBox (registerMailBox s keyId c1).1 keyId c2).1
        keyId sid d).2 = [Event.data c2 sid d] := by
  have h2 : (registerMailBox (registerMailBox s keyId c1).1 keyId c2).1 keyId
      = some { socket := some c2, queue := [] } :=
    registerMailBox_apply_self _ keyId c2
  refine ⟨h2, ?_⟩
  simp [sendDataTo, flushDataQueue, h2, updateUser, flushLoop]

/-- C5 (amended): handling a transport-recovered authenticated connection
emits no `challenge` event, attaches no `register` listener, and leaves
the registry untouched — in particular the mailbox's live-connection
reference is NOT re-bound to the new connection handle; it keeps
whatever value it had. -/
theorem recovered_connection_no_challenge_registry_untouched
    (s : RegisteredUsers) (sock : SocketId) (keyId iv enc : String) :
    handleConnection s sock true true keyId iv enc =
      (s, { events := [], registerHandlerAttached := false,
            clientKeyId := keyId }) := rfl

/-- C5 (counterexample to the claim as stated): a recovered connection
with new handle `2` for identity `"A"` does not re-bind the mailbox's
live-connection reference to the new handle — the handler leaves the
mailbox exactly as it was (here: unbound), contradicting "the identity's
mailbox live-connection reference is re-bound to the new connection
handle". -/
theorem recovered_connection_rebind_refuted :
    (handleConnection usersWithUnboundA 2 true true "A" "iv" "ch").1 "A"
        = some { socket := none, queue := [] } ∧
    (handleConnection usersWithUnboundA 2 true true "A" "iv" "ch").1 "A"
        ≠ some { socket := some 2, queue := [] } := by
  decide

theorem register_accepts_iff_exact_equality_witness :
    ((onRegister emptyUsers "A" 1 "n0nce" "n0nce").1 "A"
        = some { socket := some 1, queue := [] } ∧
      Event.disconnect 1 ∉ (onRegister emptyUsers "A" 1 "n0nce" "n0nce").2) ∧
    onRegister emptyUsers "A" 1 "n0nce" "wrong"
      = (emptyUsers, [Event.disconnect 1]) :=
  ⟨(register_accepts_iff_exact_equality emptyUsers "A" 1 "n0nce" "n0nce").1 rfl,
   (register_accepts_iff_exact_equality emptyUsers "A" 1 "n0nce" "wrong").2
     (by decide)⟩

/-! ## Frame lemmas: what each operation does to the rest of the map -/

theorem flushDataQueue_apply_self_none (s : RegisteredUsers) (k : String)
    (h : s k = none) : (flushDataQueue s k).1 k = none := by
  simp [flushDataQueue, h]

theorem flushDataQueue_apply_self_unbound (s : RegisteredUsers) (k : String)
    (q : List Envelope) (h : s k = some { socket := none, queue := q }) :
    (flushDataQueue s k).1 k = some { socket := none, queue := q } := by
  simp [flushDataQueue, h]

theorem flushDataQueue_apply_self_bound (s : RegisteredUsers) (k : String)
    (sock : SocketId) (q : List Envelope)
    (h : s k = some { socket := some sock, queue := q }) :
    (flushDataQueue s k).1 k = some { socket := some sock, queue := [] } := by
  simp [flushDataQueue, h, updateUser]

theorem onDisconnect_apply_self_none (s : RegisteredUsers) (k : String)
    (h : s k = none) : onDisconnect s k k = none := by
  simp [onDisconnect, h]

theorem onDisconnect_apply_self (s : RegisteredUsers) (k : String)
    (mb : Mailbox) (h : s k = some mb) :
    onDisconnect s k k = some { mb with socket := none } := by
  simp [onDisconnect, h, updateUser]

theorem flushDataQueue_apply_ne (s : RegisteredUsers) (k j : String)
    (hj : j ≠ k) : (flushDataQueue s k).1 j = s j := by
  unfold flushDataQueue
  cases hmb : s k with
  | none => rfl
  | some mb => cases hs : mb.socket <;> simp [hs, updateUser, hj]

theorem sendDataTo_apply_ne (s : RegisteredUsers) (k sid : String)
    (d : Data) (j : String) (hj : j ≠ k) :
    (sendDataTo s k sid d).1 j = s j := by
  unfold sendDataTo
  cases hmb : s k with
  | none => exact flushDataQueue_apply_ne s k j hj
  | some mb =>
      rw [flushDataQueue_apply_ne _ k j hj]
      simp [updateUser, hj]

theorem registerMailBox_apply_ne (s : RegisteredUsers) (k : String)
    (c : SocketId) (j : String) (hj : j ≠ k) :
    (registerMailBox s k c).1 j = s j := by
  unfold registerMailBox
  cases hmb : s k with
  | none => simp [updateUser, hj]
  | some mb =>
      rw [flushDataQueue_apply_ne _ k j hj]
      simp [updateUser, hj]

theorem onDisconnect_apply_ne (s : RegisteredUsers) (k j : String)
    (hj : j ≠ k) : onDisconnect s k j = s j := by
  unfold onDisconnect
  cases hmb : s k <;> simp [updateUser, hj]

/-! ## Mailboxes are never deleted by any operation -/

theorem updateUser_isSome (s : RegisteredUsers) (k : String) (mb : Mailbox)
    (j : String) (h : (s j).isSome = true) :
    ((updateUser s k mb) j).isSome = true := by
  by_cases hj : j = k <;> simp [updateUser, hj, h]

theorem flushDataQueue_isSome (s : RegisteredUsers) (k j : String)
    (h : (s j).isSome = true) : ((flushDataQueue s k).1 j).isSome = true := by
  unfold flushDataQueue
  cases hmb : s k with
  | none => exact h
  | some mb =>
      cases hs : mb.socket with
      | none => simp [hs, h]
      | some sock =>
          simp only [hs]
          exact updateUser_isSome s k _ j h

theorem sendDataTo_isSome (s : RegisteredUsers) (k sid : String) (d : Data)
    (j : String) (h : (s j).isSome = true) :
    ((sendDataTo s k sid d).1 j).isSome = true := by
  unfold sendDataTo
  cases hmb : s k with
  | none => exact flushDataQueue_isSome s k j h
  | some mb => exact flushDataQueue_isSome _ k j (updateUser_isSome s k _ j h)

theorem registerMailBox_isSome (s : RegisteredUsers) (k : String)
    (c : SocketId) (j : String) (h : (s j).isSome = true) :
    ((registerMailBox s k c).1 j).isSome = true := by
  unfold registerMailBox
  cases hmb : s k with
  | none => exact updateUser_isSome s k _ j h
  | some mb => exact flushDataQueue_isSome _ k j (updateUser_isSome s k _ j h)

theorem onData_isSome (s : RegisteredUsers) (sender : SocketId)
    (k sid : String) (d : Data) (j : String) (h : (s j).isSome = true) :
    ((onData s sender k sid d).1 j).isSome = true := by
  unfold onData
  by_cases hp : (s k).isSome = true
  · simpa [hp] using sendDataTo_isSome s k sid d j h
  · simpa [hp] using h

theorem onRegister_isSome (s : RegisteredUsers) (k : String)
    (sock : SocketId) (expected solved : String) (j : String)
    (h : (s j).isSome = true) :
    ((onRegister s k sock expected solved).1 j).isSome = true := by
  unfold onRegister
  by_cases heq : solved = expected
  · simpa [heq] using registerMailBox_isSome s k sock j h
  · simpa [heq] using h

theorem onDisconnect_isSome (s : RegisteredUsers) (k j : String)
    (h : (s j).isSome = true) : ((onDisconnect s k) j).isSome = true := by
  unfold onDisconnect
  cases hmb : s k with
  | none => exact h
  | some mb => exact updateUser_isSome s k _ j h

/-- C6: for a connection whose identity has a mailbox, the disconnect
handler clears exactly that mailbox's live-connection reference — the row
survives with its queue intact, every other identity's row is untouched —
and no registry operation (send, flush, register, the data / register /
disconnect handlers) ever deletes an existing mailbox row. -/
theorem disconnect_clears_only_binding_and_mailboxes_persist
    (s : RegisteredUsers) (keyId other j : String) (mb : Mailbox)
    (sid expected solved : String) (d : Data) (c sender sock : SocketId)
    (hmb : s keyId = some mb) (hother : other ≠ keyId)
    (hj : (s j).isSome = true) :
    onDisconnect s keyId keyId = some { socket := none, queue := mb.queue } ∧
    onDisconnect s keyId other = s other ∧
    ((sendDataTo s keyId sid d).1 j).isSome = true ∧
    ((flushDataQueue s keyId).1 j).isSome = true ∧
    ((registerMailBox s keyId c).1 j).isSome = true ∧
    ((onData s sender keyId sid d).1 j).isSome = true ∧
    ((onRegister s keyId sock expected solved).1 j).isSome = true ∧
    ((onDisconnect s keyId) j).isSome = true := by
  refine ⟨?_, onDisconnect_apply_ne s keyId other hother,
    sendDataTo_isSome s keyId sid d j hj,
    flushDataQueue_isSome s keyId j hj,
    registerMailBox_isSome s keyId c j hj,
    onData_isSome s sender keyId sid d j hj,
    onRegister_isSome s keyId sock expected solved j hj,
    onDisconnect_isSome s keyId j hj⟩
  unfold onDisconnect
  simp [hmb, updateUser]

theorem disconnect_clears_only_binding_and_mailboxes_persist_witness :
    onDisconnect usersAB "A" "A" = some { socket := none, queue := [] } ∧
    onDisconnect usersAB "A" "B" = usersAB "B" ∧
    ((sendDataTo usersAB "A" "t1" 9).1 "B").isSome = true ∧
    ((flushDataQueue usersAB "A").1 "B").isSome = true ∧
    ((registerMailBox usersAB "A" 3).1 "B").isSome = true ∧
    ((onData usersAB 7 "A" "t1" 9).1 "B").isSome = true ∧
    ((onRegister usersAB "A" 3 "e" "e").1 "B").isSome = true ∧
    ((onDisconnect usersAB "A") "B").isSome = true :=
  disconnect_clears_only_binding_and_mailboxes_persist usersAB "A" "B" "B"
    { socket := some 1, queue := [] } "t1" "e" "e" 9 3 7 3
    (by decide) (by decide) (by decide)

/-- C7: a connection presenting no credential is resolved to the
`'ANONYMOUS'` identity, is never issued a challenge, gets no `register`
listener (so it can never create or bind a mailbox for the lifetime of
the connection), and leaves the registry untouched — yet its `data`
sends to a registered recipient are still routed through `sendDataTo`
exactly as for any sender. -/
theorem anonymous_no_mailbox_can_still_send (s : RegisteredUsers)
    (sock : SocketId) (recovered : Bool)
    (keyIdOfCredential iv enc peerId sid : String) (d : Data)
    (hpeer : (s peerId).isSome = true) :
    handleConnection s sock recovered false keyIdOfCredential iv enc =
      (s, { events := [], registerHandlerAttached := false,
            clientKeyId := "ANONYMOUS" }) ∧
    onData s sock peerId sid d = sendDataTo s peerId sid d := by
  constructor
  · simp [handleConnection]
  · simp [onData, hpeer]

theorem anonymous_no_mailbox_can_still_send_witness :
    handleConnection usersAB 9 false false "K" "iv" "ch" =
      (usersAB, { events := [], registerHandlerAttached := false,
                  clientKeyId := "ANONYMOUS" }) ∧
    onData usersAB 9 "A" "t1" 4 = sendDataTo usersAB "A" "t1" 4 :=
  anonymous_no_mailbox_can_still_send usersAB 9 false "K" "iv" "ch" "A" "t1" 4
    (by decide)

/-- C8: the `register` handler never invokes a client-supplied
acknowledgment callback — its parameter list is `(solvedChallengeAsString)`
only, so the callback socket.io would pass for an emit-with-ack is
ignored on every path, including a successful registration.  Every
emission it performs is a `data` flush or a `disconnect`, never an
acknowledgment. -/
theorem register_handler_never_invokes_ack (s : RegisteredUsers)
    (clientKeyId : String) (sock : SocketId) (expectedB64 solved : String) :
    ((onRegister s clientKeyId sock expectedB64 solved).2).all
      (fun e => ! e.isAck) = true := by
  unfold onRegister
  by_cases heq : solved = expectedB64
  · simp only [heq, if_pos rfl]
    unfold registerMailBox
    cases hmb : s clientKeyId with
    | none => rfl
    | some mb =>
        unfold flushDataQueue
        simp only [updateUser_apply, if_pos rfl]
        exact flushLoop_no_ack sock mb.queue
  · simp [heq, Event.isAck]

/-! ## Preservation of the bound-implies-empty-queue invariant -/

theorem flushDataQueue_self_inv (s : RegisteredUsers) (k : String) :
    ∀ mb', (flushDataQueue s k).1 k = some mb' →
      mb'.socket.isSome = true → mb'.queue = [] := by
  intro mb' h1 h2
  cases hmb : s k with
  | none =>
      rw [flushDataQueue_apply_self_none s k hmb] at h1
      exact Option.noConfusion h1
  | some mb =>
      obtain ⟨msock, q⟩ := mb
      cases msock with
      | none =>
          rw [flushDataQueue_apply_self_unbound s k q hmb] at h1
          injection h1 with h3
          rw [← h3] at h2
          simp at h2
      | some sock =>
          rw [flushDataQueue_apply_self_bound s k sock q hmb] at h1
          injection h1 with h3
          rw [← h3]

theorem sendDataTo_self_inv (s : RegisteredUsers) (k sid : String)
    (d : Data) : ∀ mb', (sendDataTo s k sid d).1 k = some mb' →
      mb'.socket.isSome = true → mb'.queue = [] := by
  intro mb' h1 h2
  unfold sendDataTo at h1
  exact flushDataQueue_self_inv _ k mb' h1 h2

theorem sendDataTo_preserves_inv (s : RegisteredUsers) (k sid : String)
    (d : Data) (h : BoundImpliesEmptyQueue s) :
    BoundImpliesEmptyQueue (sendDataTo s k sid d).1 := by
  intro k' mb' hmb' hsock
  by_cases hk : k' = k
  · subst hk; exact sendDataTo_self_inv s k' sid d mb' hmb' hsock
  · rw [sendDataTo_apply_ne s k sid d k' hk] at hmb'
    exact h k' mb' hmb' hsock

theorem flushDataQueue_preserves_inv (s : RegisteredUsers) (k : String)
    (h : BoundImpliesEmptyQueue s) :
    BoundImpliesEmptyQueue (flushDataQueue s k).1 := by
  intro k' mb' hmb' hsock
  by_cases hk : k' = k
  · subst hk; exact flushDataQueue_self_inv s k' mb' hmb' hsock
  · rw [flushDataQueue_apply_ne s k k' hk] at hmb'
    exact h k' mb' hmb' hsock

theorem registerMailBox_preserves_inv (s : RegisteredUsers) (k : String)
    (c : SocketId) (h : BoundImpliesEmptyQueue s) :
    BoundImpliesEmptyQueue (registerMailBox s k c).1 := by
  intro k' mb' hmb' hsock
  by_cases hk : k' = k
  · subst hk
    rw [registerMailBox_apply_self s k' c] at hmb'
    cases hmb'
    rfl
  · rw [registerMailBox_apply_ne s k c k' hk] at hmb'
    exact h k' mb' hmb' hsock

theorem onDisconnect_preserves_inv (s : RegisteredUsers) (k : String)
    (h : BoundImpliesEmptyQueue s) :
    BoundImpliesEmptyQueue (onDisconnect s k) := by
  intro k' mb' hmb' hsock
  by_cases hk : k' = k
  · subst hk
    cases hmb : s k' with
    | none =>
        rw [onDisconnect_apply_self_none s k' hmb] at hmb'
        exact Option.noConfusion hmb'
    | some mb =>
        rw [onDisconnect_apply_self s k' mb hmb] at hmb'
        injection hmb' with h3
        rw [← h3] at hsock
        simp at hsock
  · rw [onDisconnect_apply_ne s k k' hk] at hmb'
    exact h k' mb' hmb' hsock

/-- C9: every single registry operation preserves the invariant that a
mailbox with a live socket has an empty queue: whichever operation runs
(send/enqueue, flush, register, or the data / register / disconnect
handlers), queued envelopes never coexist with a live binding once the
operation completes. -/
theorem bound_implies_empty_queue_invariant (s : RegisteredUsers)
    (keyId sid expected solved : String) (d : Data)
    (c sender sock : SocketId) (h : BoundImpliesEmptyQueue s) :
    BoundImpliesEmptyQueue (sendDataTo s keyId sid d).1 ∧
    BoundImpliesEmptyQueue (flushDataQueue s keyId).1 ∧
    BoundImpliesEmptyQueue (registerMailBox s keyId c).1 ∧
    BoundImpliesEmptyQueue (onData s sender keyId sid d).1 ∧
    BoundImpliesEmptyQueue (onRegister s keyId sock expected solved).1 ∧
    BoundImpliesEmptyQueue (onDisconnect s keyId) := by
  refine ⟨sendDataTo_preserves_inv s keyId sid d h,
    flushDataQueue_preserves_inv s keyId h,
    registerMailBox_preserves_inv s keyId c h, ?_, ?_,
    onDisconnect_preserves_inv s keyId h⟩
  · unfold onData
    by_cases hp : (s keyId).isSome = true
    · simpa [hp] using sendDataTo_preserves_inv s keyId sid d h
    · simpa [hp] using h
  · unfold onRegister
    by_cases heq : solved = expected
    · simpa [heq] using registerMailBox_preserves_inv s keyId sock h
    · simpa [heq] using h

theorem bound_implies_empty_queue_invariant_witness :
    BoundImpliesEmptyQueue (sendDataTo usersAB "B" "t1" 9).1 ∧
    BoundImpliesEmptyQueue (flushDataQueue usersAB "B").1 ∧
    BoundImpliesEmptyQueue (registerMailBox usersAB "B" 3).1 ∧
    BoundImpliesEmptyQueue (onData usersAB 7 "B" "t1" 9).1 ∧
    BoundImpliesEmptyQueue (onRegister usersAB "B" 3 "e" "e").1 ∧
    BoundImpliesEmptyQueue (onDisconnect usersAB "B") :=
  bound_implies_empty_queue_invariant usersAB "B" "t1" "e" "e" 9 3 7 3
    (by
      intro k mb hmb hsock
      by_cases hB : k = "B"
      · subst hB; simp [usersAB, updateUser] at hmb; rw [← hmb] at hsock
        simp at hsock
      · by_cases hA : k = "A"
        · subst hA; simp [usersAB, updateUser] at hmb; rw [← hmb]
        · simp [usersAB, updateUser, hA, hB, emptyUsers] at hmb)

end SME
